import Mathlib

/-!
Verification development for the ecs-compositor Wayland client runtime.

The definitions below are a shallow embedding of the repository's wire
codec (`crates/core/src/primitives/*`), message framing
(`crates/core/src/message.rs`), ring-buffered I/O engine
(`crates/wayland-tokio/src/drive_io.rs`) and object registry
(`crates/wayland-tokio/src/connection/registry.rs`).

Modelling conventions:
- byte buffers are `List Nat` (each element one byte), read from the front;
  a cursor that advances past consumed bytes is modelled by returning the
  unconsumed tail;
- 32-bit machine integers are `Nat` (unsigned) or `Int` (signed, two's
  complement range) with wrap-around written explicitly as `% 4294967296`
  exactly where the Rust arithmetic is 32-bit;
- the host's native byte order is modelled as little-endian (the byte
  order is opaque to every claim except through `to_ne_bytes` /
  `from_ne_bytes`, which the model keeps mutually inverse exactly as in
  the source);
- fallible reads return `Except CodecError`, mirroring
  `Result<_, wl_display::...>` in the source; writes into a
  caller-provided sufficiently large buffer are modelled as the byte
  list they produce, and a write whose u32 size computation overflows —
  a panic in the source — is modelled as `none`.
-/

/-- Error kinds of the codec, embedding `wl_display::Error` /
`wl_display::enumeration::error` as used by the primitive codecs
(variants `InvalidMethod` / `Implementation` resp. `invalid_method` /
`implementation`). -/
inductive ErrKind where
  | invalid_method : ErrKind
  | implementation : ErrKind
deriving DecidableEq, Repr

/-- A codec error: kind plus the static message, embedding
`primitives::Error { err, msg }` (built by `wl_display::Error::msg`). -/
structure CodecError where
  err : ErrKind
  msg : String
deriving DecidableEq, Repr

/-- The four little-endian bytes of a 32-bit value, embedding
`u32::to_ne_bytes` / `i32::to_ne_bytes` on the (little-endian) host. -/
def u32_to_ne_bytes (x : Nat) : List Nat :=
  [x % 256, x / 256 % 256, x / 65536 % 256, x / 16777216 % 256]

/-- Reassemble a 32-bit value from its four native-endian bytes, embedding
`u32::from_ne_bytes`. -/
def u32_from_ne_bytes (a b c d : Nat) : Nat :=
  a + 256 * b + 65536 * c + 16777216 * d

/-- Embeds `primitives::read_4_bytes` (crates/core/src/primitives/mod.rs):
pop the first four bytes off the cursor, or `none` if fewer remain. -/
def read_4_bytes : List Nat → Option ((Nat × Nat × Nat × Nat) × List Nat)
  | a :: b :: c :: d :: tail => some ((a, b, c, d), tail)
  | _ => none

/-- Two's-complement interpretation of a 32-bit word as an `i32` value. -/
def i32_of_u32 (u : Nat) : Int :=
  if u < 2147483648 then (u : Int) else (u : Int) - 4294967296

/-- The 32-bit two's-complement word of an `i32` value. -/
def u32_of_i32 (v : Int) : Nat :=
  (v % 4294967296).toNat

/-- Embeds `Value for int : read` (crates/core/src/primitives/inner/int.rs)
and `Int::read` (crates/core/src/primitives/int.rs): read 4 bytes and
reinterpret them as a signed 32-bit integer. -/
def int_read (data : List Nat) : Except CodecError (Int × List Nat) :=
  match read_4_bytes data with
  | none => .error ⟨.invalid_method, "failed to read int"⟩
  | some ((a, b, c, d), tail) => .ok (i32_of_u32 (u32_from_ne_bytes a b c d), tail)

/-- Embeds `Value for int : write`: the four native-endian bytes of the
value (the source errors only when the buffer is too short, which the
byte-list model makes impossible by construction). -/
def int_write (v : Int) : List Nat :=
  u32_to_ne_bytes (u32_of_i32 v)

/-- Embeds `Value for uint : read` (crates/core/src/primitives/inner/int.rs). -/
def uint_read (data : List Nat) : Except CodecError (Nat × List Nat) :=
  match read_4_bytes data with
  | none => .error ⟨.invalid_method, "failed to read int"⟩
  | some ((a, b, c, d), tail) => .ok (u32_from_ne_bytes a b c d, tail)

/-- Embeds `Value for uint : write`. -/
def uint_write (v : Nat) : List Nat :=
  u32_to_ne_bytes v

/-- Fixed-point 24.8 value, embedding `Fixed(pub i32)` /
`fixed(pub i32)` (crates/core/src/primitives/fixed.rs and
crates/core/src/primitives/inner/fixed.rs). -/
structure Fixed where
  raw : Int
deriving DecidableEq, Repr

/-- Embeds `Fixed::to_f64`: `f64::from(self.0) / 256.0`. The `f64` result
is modelled as the exact rational: converting an `i32` to `f64` is exact
(53-bit mantissa) and dividing by the power of two `256.0` is exact at
these magnitudes, so the rational model loses nothing. -/
def Fixed.to_f64 (f : Fixed) : ℚ :=
  (f.raw : ℚ) / 256

/-- Embeds `Fixed::from_f64`: `Fixed(d as i32)`. Rust's `as i32` on `f64`
truncates toward zero and saturates at the `i32` bounds; truncation
toward zero on an exact rational is `Int.tdiv num den`. Note the source
does NOT multiply by 256 here. -/
def Fixed.from_f64 (d : ℚ) : Fixed :=
  ⟨max (-2147483648) (min 2147483647 (Int.tdiv d.num d.den))⟩

/-- Embeds `Fixed::to_i32`: `self.0 / 256` with Rust's truncating `i32`
division. -/
def Fixed.to_i32 (f : Fixed) : Int :=
  Int.tdiv f.raw 256

/-- Embeds `Fixed::from_i32`: `Fixed(i * 256)`, with the 32-bit
wrap-around of the release-mode multiplication made explicit. -/
def Fixed.from_i32 (i : Int) : Fixed :=
  ⟨(i * 256 + 2147483648) % 4294967296 - 2147483648⟩

/-- Embeds `Value for fixed : read` / `Fixed::read`: identical byte-level
behaviour to `int` over the raw field. -/
def fixed_read (data : List Nat) : Except CodecError (Fixed × List Nat) :=
  match read_4_bytes data with
  | none => .error ⟨.invalid_method, "failed to read fixed-point"⟩
  | some ((a, b, c, d), tail) => .ok (⟨i32_of_u32 (u32_from_ne_bytes a b c d)⟩, tail)

/-- Embeds `Fixed::write`. -/
def fixed_write (f : Fixed) : List Nat :=
  u32_to_ne_bytes (u32_of_i32 f.raw)

/-- Embeds `read_id` (crates/core/src/primitives/object.rs and its
`inner` twin): read a 32-bit word, `NonZero::new` maps 0 to `none`. -/
def read_id (data : List Nat) : Except CodecError (Option Nat × List Nat) :=
  match read_4_bytes data with
  | none => .error ⟨.invalid_method, "failed to read object id"⟩
  | some ((a, b, c, d), tail) =>
      let u := u32_from_ne_bytes a b c d
      .ok (if u = 0 then none else some u, tail)

/-- Embeds `Primitive for Object : read` / `Value for object : read`
(required-object position): a zero id is `invalid_method`. -/
def object_read (data : List Nat) : Except CodecError (Nat × List Nat) :=
  match read_id data with
  | .error e => .error e
  | .ok (none, _) => .error ⟨.invalid_method, "null object not allowed here"⟩
  | .ok (some id, tail) => .ok (id, tail)

/-- Embeds `Primitive for Object : write` (`write_id` with `self.id.get()`). -/
def object_write (id : Nat) : List Nat :=
  u32_to_ne_bytes id

/-- Embeds `Primitive for Option<Object> : read`: a zero id decodes to
`none`. -/
def option_object_read (data : List Nat) : Except CodecError (Option Nat × List Nat) :=
  read_id data

/-- Embeds `Primitive for Option<Object> : write` (`write_id` with
`self.map(id).unwrap_or(0)`). -/
def option_object_write (o : Option Nat) : List Nat :=
  u32_to_ne_bytes (o.getD 0)

/-- Embeds `Primitive for NewId : read` / `Value for new_id : read`: the
source maps a zero id to the `implementation` error kind (message
"id with value 0 is not allowed here"). -/
def new_id_read (data : List Nat) : Except CodecError (Nat × List Nat) :=
  match read_id data with
  | .error e => .error e
  | .ok (none, _) => .error ⟨.implementation, "id with value 0 is not allowed here"⟩
  | .ok (some id, tail) => .ok (id, tail)

/-- Embeds `Primitive for NewId : write`. -/
def new_id_write (id : Nat) : List Nat :=
  u32_to_ne_bytes id

/-- Embeds `align_to_4` (crates/core/src/primitives/array.rs):
`(x + 3) & !3` in 32-bit arithmetic; the addition wraps modulo `2^32`
(release-mode semantics) and the mask clears the two low bits. -/
def align_to_4 (x : Nat) : Nat :=
  (x + 3) % 4294967296 / 4 * 4

/-- Embeds `read_data` (crates/core/src/primitives/array.rs): read the
4-byte length prefix, then split off `align_to_4 len` bytes
(`split_at_checked`); returns the padded content region together with the
decoded length and the remaining cursor. -/
def read_data (data : List Nat) : Option ((List Nat × Nat) × List Nat) :=
  match read_4_bytes data with
  | none => none
  | some ((a, b, c, d), rest) =>
      let len := u32_from_ne_bytes a b c d
      if align_to_4 len ≤ rest.length then
        some ((rest.take (align_to_4 len), len), rest.drop (align_to_4 len))
      else none

/-- Embeds the size computation of `Primitive::len()` for strings and
arrays (crates/core/src/primitives/array.rs): `4 + align_to_4 len` in
u32 arithmetic — once `align_to_4 len = 2^32 - 4` the addition wraps
modulo `2^32` (release mode; debug builds panic on the overflow). -/
def data_size (len : Nat) : Nat :=
  (4 + align_to_4 len) % 4294967296

/-- Embeds `write_data` (crates/core/src/primitives/array.rs) for a
value that carries its content (`ptr = Some`), called with
`size = Primitive::len()` = `data_size len` reserved bytes: the
native-endian length prefix, the `len` content bytes, then explicitly
zeroed padding filling the rest of the reserved region. For
`len > 2^32 - 8` the u32 size computation wraps below what the header
and content need and the source panics (the overflowing add in debug
builds; `buf[..4]` resp. `buf[..len]` on the too-short split in
release); the model returns `none` for that panic. -/
def write_data (content : List Nat) : Option (List Nat) :=
  let len := content.length
  let size := data_size len
  if 4 ≤ size ∧ len ≤ size - 4 then
    some (u32_to_ne_bytes len ++ content ++ List.replicate (size - 4 - len) 0)
  else none

/-- Embeds `Primitive for Array : read`. The decoded value is the padded
region plus the decoded length (the array's content is the first `len`
bytes of the region). -/
def array_read (data : List Nat) : Except CodecError ((List Nat × Nat) × List Nat) :=
  match read_data data with
  | none => .error ⟨.invalid_method, "failed to read array"⟩
  | some r => .ok r

/-- Embeds `Primitive for Array : write` (`write_data` with `self.len()`
= `data_size len` reserved). -/
def array_write (content : List Nat) : Option (List Nat) :=
  write_data content

/-- Embeds `Primitive for String : read`: like `Array::read` but a zero
length is rejected (`empty string not allowed here`). No other content
validation happens. -/
def string_read (data : List Nat) : Except CodecError ((List Nat × Nat) × List Nat) :=
  match read_data data with
  | none => .error ⟨.invalid_method, "failed to read string"⟩
  | some ((str, len), tail) =>
      if len = 0 then .error ⟨.invalid_method, "empty string not allowed here"⟩
      else .ok ((str, len), tail)

/-- Embeds `Primitive for String : write`. -/
def string_write (content : List Nat) : Option (List Nat) :=
  write_data content

/-- One ring buffer's cursor, embedding `RingBuf<T>`
(crates/wayland-tokio/src/drive_io.rs): `buf` is a fixed allocation of
`cap` elements and `data` is the occupied subrange, described by its
offset `off` into the allocation and its length `len`. -/
structure RingCur where
  cap : Nat
  off : Nat
  len : Nat
deriving DecidableEq, Repr

/-- Embeds `RingBuf::unused_end`: the free span from `data.end()` to
`buf.end()`. -/
def RingCur.unused_end (c : RingCur) : Nat :=
  c.cap - (c.off + c.len)

/-- Embeds the `Interest` bitflags of the I/O engine
(`RECV`, `SEND`, `RECV_CLOSED`, `SEND_CLOSED`). -/
structure Interest where
  recv : Bool
  send : Bool
  recvClosed : Bool
  sendClosed : Bool
deriving DecidableEq, Repr

/-- The `Io` state as far as the ring cursors and the interest mask are
concerned, embedding `Io { tx, rx, interest, .. }`. -/
structure IoState where
  txDa : RingCur
  txFd : RingCur
  rxDa : RingCur
  rxFd : RingCur
  interest : Interest
deriving DecidableEq, Repr

/-- Embeds `message_hdr` / `message_header`: object id, 16-bit total
frame length, 16-bit opcode. -/
structure MessageHeader where
  object_id : Nat
  datalen : Nat
  opcode : Nat
deriving DecidableEq, Repr

/-- In-band byte length of the frame header: `message_hdr::len()` is
`4 + 2 + 2 = 8` (crates/core/src/message.rs); the constant
`message_header::DATA_LEN` used by `tx_msg_buf` equals it. -/
def message_header_data_len : Nat := 8

/-- Modelled from the spec: `message_header::CTRL_LEN` — the constant's
definition is not under src/ (only its uses are); per §4.B/§4.A the
8-byte header consists of two in-band words and carries no file
descriptors, so its FD (control) length is 0. -/
def message_header_ctrl_len : Nat := 0

/-- Embeds `message_hdr::write` (crates/core/src/message.rs): the object
id word followed by the second 32-bit word packed as
`(datalen as u32) << 16 | opcode as u32` — with the 16-bit fields this
is `datalen * 2^16 + opcode`. -/
def message_header_write (hdr : MessageHeader) : List Nat :=
  object_write hdr.object_id ++
    uint_write ((hdr.datalen % 65536) * 65536 + hdr.opcode % 65536)

/-- Embeds `Io::new`: both directions get a `MAX_DATA = 4 * 65536` byte
ring and a 1024-slot FD ring, the cached header is empty and the initial
interest is `RECV`. -/
def io_new : IoState where
  txDa := ⟨262144, 0, 0⟩
  txFd := ⟨1024, 0, 0⟩
  rxDa := ⟨262144, 0, 0⟩
  rxFd := ⟨1024, 0, 0⟩
  interest := ⟨true, false, false, false⟩

/-- Embeds `Io::tx_msg_buf` (crates/wayland-tokio/src/drive_io.rs,
lines 370-423). The message is abstracted by the two quantities the
function consumes: `msgLen = msg.len()` and `fdCount = M::FDS`. In
source order: the cursor is saved (returned to the caller on success),
`SEND` is inserted unless `SEND_CLOSED` is set, then both free-tail
splits are attempted; on success both data lengths grow and the header
is stamped with `datalen = da.len() as u16` (a 16-bit truncating cast of
`8 + msg.len()`); on failure nothing but the interest mask changed. -/
def tx_msg_buf (io : IoState) (objId op msgLen fdCount : Nat) :
    IoState × Option MessageHeader :=
  let data_len := message_header_data_len + msgLen
  let ctrl_len := message_header_ctrl_len + fdCount
  let i := io.interest
  let i' := if i.sendClosed then i else { i with send := true }
  if data_len ≤ io.txDa.unused_end ∧ ctrl_len ≤ io.txFd.unused_end then
    ({ io with
        txDa := { io.txDa with len := io.txDa.len + data_len },
        txFd := { io.txFd with len := io.txFd.len + ctrl_len },
        interest := i' },
     some ⟨objId, data_len % 65536, op⟩)
  else
    ({ io with interest := i' }, none)

/-- Embeds `RawSliceExt::split_at` applied to a ring's `data` range:
on success the detached head range is returned and the cursor advances
past it; on failure the cursor is untouched. -/
def split_cursor (c : RingCur) (n : Nat) : Option (Nat × Nat) × RingCur :=
  if n ≤ c.len then
    (some (c.off, n), { c with off := c.off + n, len := c.len - n })
  else
    (none, c)

/-- Embeds `Io::rx_msg_buf` (crates/wayland-tokio/src/drive_io.rs,
lines 425-457): save both rx cursors, attempt both `data.split_at`
calls (each advances its own cursor on success), and on any failure
re-insert `RECV` (unless `RECV_CLOSED`) and restore both cursors. -/
def rx_msg_buf (io : IoState) (daReq fdReq : Nat) :
    IoState × Option ((Nat × Nat) × (Nat × Nat)) :=
  let saved := (io.rxDa, io.rxFd)
  let da := split_cursor io.rxDa daReq
  let fd := split_cursor io.rxFd fdReq
  match da.1, fd.1 with
  | some d, some f => ({ io with rxDa := da.2, rxFd := fd.2 }, some (d, f))
  | _, _ =>
      let i := io.interest
      let i' := if i.recvClosed then i else { i with recv := true }
      ({ io with rxDa := saved.1, rxFd := saved.2, interest := i' }, none)

/-- Oracle for one `Io::recv` call: which of the source's exits is taken
when `RECV_CLOSED` is not already set. `got_data` carries the new rx
cursors (the bytes and FDs appended by `recvmsg` are abstracted — the
claims about the interest mask do not depend on them). -/
inductive RecvEvent where
  | no_room_for_header : RecvEvent
  | no_room_for_body : RecvEvent
  | peer_closed : RecvEvent
  | got_data : RingCur → RingCur → RecvEvent
  | would_block : RecvEvent
  | transport_error : RecvEvent

/-- Embeds the interest/cursor effect of `Io::recv`
(crates/wayland-tokio/src/drive_io.rs, lines 127-290): if `RECV_CLOSED`
is set it only removes `RECV`; the two no-room early exits remove
`RECV`; a zero-byte `recvmsg` removes `RECV` and latches `RECV_CLOSED`;
data, `EWOULDBLOCK` and error exits leave the mask alone. -/
def recv_step (io : IoState) (ev : RecvEvent) : IoState :=
  if io.interest.recvClosed then
    { io with interest := { io.interest with recv := false } }
  else
    match ev with
    | .no_room_for_header => { io with interest := { io.interest with recv := false } }
    | .no_room_for_body => { io with interest := { io.interest with recv := false } }
    | .peer_closed =>
        { io with interest := { io.interest with recv := false, recvClosed := true } }
    | .got_data rxDa' rxFd' => { io with rxDa := rxDa', rxFd := rxFd' }
    | .would_block => io
    | .transport_error => io

/-- Oracle for one `Io::send` call, taken when the early
empty-or-closed exit does not fire. `sent_all` / `sent_some` carry the
advanced tx cursors. -/
inductive SendEvent where
  | peer_closed : SendEvent
  | sent_all : RingCur → RingCur → SendEvent
  | sent_some : RingCur → RingCur → SendEvent
  | would_block : SendEvent
  | transport_error : SendEvent

/-- Embeds the interest/cursor effect of `Io::send`
(crates/wayland-tokio/src/drive_io.rs, lines 292-368): with no tx data
or with `SEND_CLOSED` set it removes `SEND`; a zero-byte `sendmsg`
removes `SEND` and latches `SEND_CLOSED`; draining the ring removes
`SEND`; partial sends, `EWOULDBLOCK` and errors leave the mask alone. -/
def send_step (io : IoState) (ev : SendEvent) : IoState :=
  if io.txDa.len = 0 ∨ io.interest.sendClosed = true then
    { io with interest := { io.interest with send := false } }
  else
    match ev with
    | .peer_closed =>
        { io with interest := { io.interest with send := false, sendClosed := true } }
    | .sent_all txDa' txFd' =>
        { io with txDa := txDa', txFd := txFd',
                  interest := { io.interest with send := false } }
    | .sent_some txDa' txFd' => { io with txDa := txDa', txFd := txFd' }
    | .would_block => io
    | .transport_error => io

/-- One operation of the I/O engine: a `recv` or `send` round of
`drive_io`, or a buffer reservation by `tx_msg_buf` / `rx_msg_buf`. -/
inductive IoStep where
  | recv : RecvEvent → IoStep
  | send : SendEvent → IoStep
  | txBuf : Nat → Nat → Nat → Nat → IoStep
  | rxBuf : Nat → Nat → IoStep

/-- Apply one engine operation to the `Io` state. -/
def io_step (io : IoState) : IoStep → IoState
  | .recv ev => recv_step io ev
  | .send ev => send_step io ev
  | .txBuf objId op msgLen fdCount => (tx_msg_buf io objId op msgLen fdCount).1
  | .rxBuf daReq fdReq => (rx_msg_buf io daReq fdReq).1

/-- Run a sequence of engine operations (any interleaving of `drive_io`
rounds and buffer reservations). -/
def io_run (io : IoState) (tr : List IoStep) : IoState :=
  tr.foldl io_step io

/-- Embeds the id advance of `Registry::new_object`
(crates/wayland-tokio/src/connection/registry.rs):
`NonZeroU32::saturating_add(1)`, saturating at `u32::MAX`. -/
def registry_next (n : Nat) : Nat :=
  min (n + 1) 4294967295

/-- The `next_id` field after `k` allocations on a fresh registry
(`Registry::new` starts it at 2). -/
def registry_state : Nat → Nat
  | 0 => 2
  | k + 1 => registry_next (registry_state k)

/-- The object id returned by allocation number `k` (0-based):
`new_object` returns the current `next_id` and then advances it. -/
def alloc_id_at (k : Nat) : Nat :=
  registry_state k

lemma u32_bytes_id (u : Nat) (hu : u < 4294967296) :
    u32_from_ne_bytes (u % 256) (u / 256 % 256) (u / 65536 % 256) (u / 16777216 % 256) = u := by
  unfold u32_from_ne_bytes
  omega

lemma i32_u32_id (v : Int) (h1 : -2147483648 ≤ v) (h2 : v < 2147483648) :
    i32_of_u32 (u32_of_i32 v) = v := by
  unfold i32_of_u32 u32_of_i32
  split <;> omega

lemma u32_of_i32_lt (v : Int) : u32_of_i32 v < 4294967296 := by
  unfold u32_of_i32
  omega

lemma uint_roundtrip (u : Nat) (hu : u < 4294967296) (rest : List Nat) :
    uint_read (uint_write u ++ rest) = .ok (u, rest) := by
  simp only [uint_write, u32_to_ne_bytes, List.cons_append, List.nil_append,
    uint_read, read_4_bytes]
  rw [u32_bytes_id u hu]

lemma int_roundtrip (v : Int) (h1 : -2147483648 ≤ v) (h2 : v < 2147483648) (rest : List Nat) :
    int_read (int_write v ++ rest) = .ok (v, rest) := by
  simp only [int_write, u32_to_ne_bytes, List.cons_append, List.nil_append,
    int_read, read_4_bytes]
  rw [u32_bytes_id _ (u32_of_i32_lt v), i32_u32_id v h1 h2]

lemma read_id_of_write (id : Nat) (h : id < 4294967296) (rest : List Nat) :
    read_id (u32_to_ne_bytes id ++ rest) = .ok (if id = 0 then none else some id, rest) := by
  simp only [u32_to_ne_bytes, List.cons_append, List.nil_append, read_id, read_4_bytes]
  rw [u32_bytes_id id h]

lemma object_roundtrip (id : Nat) (h0 : 0 < id) (h : id < 4294967296) (rest : List Nat) :
    object_read (object_write id ++ rest) = .ok (id, rest) := by
  unfold object_read object_write
  rw [read_id_of_write id h, if_neg (by omega)]

lemma option_object_roundtrip (o : Option Nat)
    (h : ∀ i, o = some i → 0 < i ∧ i < 4294967296) (rest : List Nat) :
    option_object_read (option_object_write o ++ rest) = .ok (o, rest) := by
  unfold option_object_read option_object_write
  cases o with
  | none =>
      rw [show (Option.getD none 0) = 0 from rfl, read_id_of_write 0 (by omega), if_pos rfl]
  | some i =>
      obtain ⟨hi0, hi⟩ := h i rfl
      rw [show (Option.getD (some i) 0) = i from rfl, read_id_of_write i hi, if_neg (by omega)]

lemma new_id_roundtrip (id : Nat) (h0 : 0 < id) (h : id < 4294967296) (rest : List Nat) :
    new_id_read (new_id_write id ++ rest) = .ok (id, rest) := by
  unfold new_id_read new_id_write
  rw [read_id_of_write id h, if_neg (by omega)]

lemma fixed_roundtrip (f : Fixed) (h1 : -2147483648 ≤ f.raw) (h2 : f.raw < 2147483648)
    (rest : List Nat) :
    fixed_read (fixed_write f ++ rest) = .ok (f, rest) := by
  simp only [fixed_write, u32_to_ne_bytes, List.cons_append, List.nil_append,
    fixed_read, read_4_bytes]
  rw [u32_bytes_id _ (u32_of_i32_lt f.raw), i32_u32_id f.raw h1 h2]

lemma align_to_4_bounds (len : Nat) (h : len + 8 ≤ 4294967296) :
    len ≤ align_to_4 len ∧ align_to_4 len ≤ len + 3 := by
  unfold align_to_4
  omega

lemma write_data_eq (c : List Nat) (h : c.length + 8 ≤ 4294967296) :
    write_data c = some (u32_to_ne_bytes c.length ++ c ++
      List.replicate (align_to_4 c.length - c.length) 0) := by
  have halign := align_to_4_bounds c.length h
  have hs : data_size c.length = 4 + align_to_4 c.length := by
    unfold data_size
    omega
  simp only [write_data, hs]
  rw [if_pos (by omega)]
  have hrep : 4 + align_to_4 c.length - 4 - c.length = align_to_4 c.length - c.length := by
    omega
  rw [hrep]

lemma read_data_of_write (c : List Nat) (h : c.length + 8 ≤ 4294967296) (rest : List Nat) :
    read_data ((u32_to_ne_bytes c.length ++ c ++
        List.replicate (align_to_4 c.length - c.length) 0) ++ rest) =
      some ((c ++ List.replicate (align_to_4 c.length - c.length) 0, c.length), rest) := by
  have hlen : c.length < 4294967296 := by omega
  have halign := align_to_4_bounds c.length h
  have hpadlen : (c ++ List.replicate (align_to_4 c.length - c.length) 0).length
      = align_to_4 c.length := by
    simp only [List.length_append, List.length_replicate]
    omega
  simp only [List.append_assoc, u32_to_ne_bytes, List.cons_append, List.nil_append,
    read_data, read_4_bytes]
  rw [u32_bytes_id _ hlen, ← List.append_assoc]
  rw [if_pos (by simp only [List.length_append, List.length_replicate]; omega)]
  rw [List.take_left' hpadlen, List.drop_left' hpadlen]

lemma array_roundtrip (c : List Nat) (h : c.length + 8 ≤ 4294967296) (rest : List Nat) :
    array_write c = some (u32_to_ne_bytes c.length ++ c ++
      List.replicate (align_to_4 c.length - c.length) 0) ∧
    array_read ((u32_to_ne_bytes c.length ++ c ++
        List.replicate (align_to_4 c.length - c.length) 0) ++ rest) =
      .ok ((c ++ List.replicate (align_to_4 c.length - c.length) 0, c.length), rest) := by
  refine ⟨write_data_eq c h, ?_⟩
  unfold array_read
  rw [read_data_of_write c h]

lemma string_roundtrip (c : List Nat) (h0 : 0 < c.length) (h : c.length + 8 ≤ 4294967296)
    (rest : List Nat) :
    string_write c = some (u32_to_ne_bytes c.length ++ c ++
      List.replicate (align_to_4 c.length - c.length) 0) ∧
    string_read ((u32_to_ne_bytes c.length ++ c ++
        List.replicate (align_to_4 c.length - c.length) 0) ++ rest) =
      .ok ((c ++ List.replicate (align_to_4 c.length - c.length) 0, c.length), rest) := by
  refine ⟨write_data_eq c h, ?_⟩
  unfold string_read
  rw [read_data_of_write c h]
  exact if_neg (by omega)

/-- C1 counterexample: the string of in-wire length 4294967295 — a
representable u32 length — cannot be encoded: `align_to_4` wraps its
padded length to 0, the reserved size degenerates to the 4 header bytes,
and `write_data` panics copying the content, so `decode(encode(v)) = v`
fails for this representable value. -/
theorem c1_counterexample_oversized_write_fails :
    string_write (List.replicate 4294967295 0) = none ∧
    (List.replicate 4294967295 0).length < 4294967296 := by
  have h1 : (List.replicate (4294967295 : Nat) (0 : Nat)).length = 4294967295 :=
    List.length_replicate 4294967295 0
  constructor
  · unfold string_write write_data
    rw [h1]
    rw [if_neg (by decide)]
  · rw [h1]
    decide

/-- C1 (amended): write-then-read is the identity for int, uint, fixed,
required and optional object, and new_id over their whole representable
ranges; for strings and arrays it is the identity whenever the in-wire
length is at most `2^32 - 8` (beyond that the writer's u32 size
computation overflows and encoding fails, see the counterexample), and
the decoded region is the content followed by explicit zero padding. -/
theorem c1_primitive_roundtrip :
    (∀ v : Int, ∀ rest : List Nat, -2147483648 ≤ v → v < 2147483648 →
      int_read (int_write v ++ rest) = .ok (v, rest)) ∧
    (∀ u : Nat, ∀ rest : List Nat, u < 4294967296 →
      uint_read (uint_write u ++ rest) = .ok (u, rest)) ∧
    (∀ f : Fixed, ∀ rest : List Nat, -2147483648 ≤ f.raw → f.raw < 2147483648 →
      fixed_read (fixed_write f ++ rest) = .ok (f, rest)) ∧
    (∀ id : Nat, ∀ rest : List Nat, 0 < id → id < 4294967296 →
      object_read (object_write id ++ rest) = .ok (id, rest)) ∧
    (∀ o : Option Nat, ∀ rest : List Nat, (∀ i, o = some i → 0 < i ∧ i < 4294967296) →
      option_object_read (option_object_write o ++ rest) = .ok (o, rest)) ∧
    (∀ id : Nat, ∀ rest : List Nat, 0 < id → id < 4294967296 →
      new_id_read (new_id_write id ++ rest) = .ok (id, rest)) ∧
    (∀ c : List Nat, ∀ rest : List Nat, 0 < c.length → c.length + 8 ≤ 4294967296 →
      string_write c = some (u32_to_ne_bytes c.length ++ c ++
          List.replicate (align_to_4 c.length - c.length) 0) ∧
      string_read ((u32_to_ne_bytes c.length ++ c ++
          List.replicate (align_to_4 c.length - c.length) 0) ++ rest) =
        .ok ((c ++ List.replicate (align_to_4 c.length - c.length) 0, c.length), rest) ∧
      (c ++ List.replicate (align_to_4 c.length - c.length) 0).take c.length = c) ∧
    (∀ c : List Nat, ∀ rest : List Nat, c.length + 8 ≤ 4294967296 →
      array_write c = some (u32_to_ne_bytes c.length ++ c ++
          List.replicate (align_to_4 c.length - c.length) 0) ∧
      array_read ((u32_to_ne_bytes c.length ++ c ++
          List.replicate (align_to_4 c.length - c.length) 0) ++ rest) =
        .ok ((c ++ List.replicate (align_to_4 c.length - c.length) 0, c.length), rest) ∧
      (c ++ List.replicate (align_to_4 c.length - c.length) 0).take c.length = c) :=
  ⟨fun v rest h1 h2 => int_roundtrip v h1 h2 rest,
   fun u rest hu => uint_roundtrip u hu rest,
   fun f rest h1 h2 => fixed_roundtrip f h1 h2 rest,
   fun id rest h0 h => object_roundtrip id h0 h rest,
   fun o rest h => option_object_roundtrip o h rest,
   fun id rest h0 h => new_id_roundtrip id h0 h rest,
   fun c rest h0 h => ⟨(string_roundtrip c h0 h rest).1,
     (string_roundtrip c h0 h rest).2, List.take_left c _⟩,
   fun c rest h => ⟨(array_roundtrip c h rest).1,
     (array_roundtrip c h rest).2, List.take_left c _⟩⟩

/-- Witness for C1 at concrete inputs of every primitive. -/
theorem c1_primitive_roundtrip_witness :
    int_read (int_write (-5) ++ [9]) = .ok (-5, [9]) ∧
    uint_read (uint_write 4294967295 ++ []) = .ok (4294967295, []) ∧
    fixed_read (fixed_write ⟨-256⟩ ++ []) = .ok (⟨-256⟩, []) ∧
    object_read (object_write 1 ++ []) = .ok (1, []) ∧
    option_object_read (option_object_write (some 3) ++ []) = .ok (some 3, []) ∧
    new_id_read (new_id_write 2 ++ []) = .ok (2, []) ∧
    (string_write [104, 105, 0] = some (u32_to_ne_bytes 3 ++ [104, 105, 0] ++
        List.replicate (align_to_4 3 - 3) 0) ∧
      string_read ((u32_to_ne_bytes 3 ++ [104, 105, 0] ++
          List.replicate (align_to_4 3 - 3) 0) ++ []) =
        .ok (([104, 105, 0] ++ List.replicate (align_to_4 3 - 3) 0, 3), []) ∧
      ([104, 105, 0] ++ List.replicate (align_to_4 3 - 3) 0).take 3 = [104, 105, 0]) ∧
    (array_write [1, 2, 3, 4] = some (u32_to_ne_bytes 4 ++ [1, 2, 3, 4] ++
        List.replicate (align_to_4 4 - 4) 0) ∧
      array_read ((u32_to_ne_bytes 4 ++ [1, 2, 3, 4] ++
          List.replicate (align_to_4 4 - 4) 0) ++ []) =
        .ok (([1, 2, 3, 4] ++ List.replicate (align_to_4 4 - 4) 0, 4), []) ∧
      ([1, 2, 3, 4] ++ List.replicate (align_to_4 4 - 4) 0).take 4 = [1, 2, 3, 4]) :=
  ⟨c1_primitive_roundtrip.1 (-5) [9] (by decide) (by decide),
   c1_primitive_roundtrip.2.1 4294967295 [] (by decide),
   c1_primitive_roundtrip.2.2.1 ⟨-256⟩ [] (by decide) (by decide),
   c1_primitive_roundtrip.2.2.2.1 1 [] (by decide) (by decide),
   c1_primitive_roundtrip.2.2.2.2.1 (some 3) []
     (by intro i hi; cases hi; exact ⟨by decide, by decide⟩),
   c1_primitive_roundtrip.2.2.2.2.2.1 2 [] (by decide) (by decide),
   c1_primitive_roundtrip.2.2.2.2.2.2.1 [104, 105, 0] [] (by decide) (by decide),
   c1_primitive_roundtrip.2.2.2.2.2.2.2 [1, 2, 3, 4] [] (by decide)⟩

/-- C2 counterexample: for the in-wire length 4294967292 the u32 size
computation `4 + align_to_4 len` wraps to 0, so the encoder does not
produce `4 + align4(len)` bytes — it panics and produces nothing. -/
theorem c2_counterexample_size_computation_wraps :
    string_write (List.replicate 4294967292 0) = none ∧
    (List.replicate 4294967292 0).length < 4294967296 := by
  have h1 : (List.replicate (4294967292 : Nat) (0 : Nat)).length = 4294967292 :=
    List.length_replicate 4294967292 0
  constructor
  · unfold string_write write_data
    rw [h1]
    rw [if_neg (by decide)]
  · rw [h1]
    decide

/-- C2 (amended): for every in-wire length up to `2^32 - 8`, encoding a
string produces exactly `4 + align_to_4 len` bytes — a 4-byte
native-endian length prefix, the `len` content bytes, and explicitly
zeroed padding to the next 4-byte boundary — and in particular "hi\0"
encodes to [3,0,0,0,'h','i',0,0] and "wl_\0" to
[4,0,0,0,'w','l','_',0]; above `2^32 - 8` the u32 size computation
overflows and encoding fails (see the counterexample). -/
theorem c2_string_encoding_layout :
    (∀ c : List Nat, c.length + 8 ≤ 4294967296 →
      string_write c = some (u32_to_ne_bytes c.length ++ c ++
          List.replicate (align_to_4 c.length - c.length) 0) ∧
      (u32_to_ne_bytes c.length ++ c ++
          List.replicate (align_to_4 c.length - c.length) 0).length =
        4 + align_to_4 c.length) ∧
    string_write [104, 105, 0] = some [3, 0, 0, 0, 104, 105, 0, 0] ∧
    string_write [119, 108, 95, 0] = some [4, 0, 0, 0, 119, 108, 95, 0] := by
  refine ⟨fun c h => ⟨write_data_eq c h, ?_⟩, by decide, by decide⟩
  have hb := align_to_4_bounds c.length h
  simp only [u32_to_ne_bytes, List.length_append, List.length_replicate,
    List.length_cons, List.length_nil]
  omega

/-- Witness for C2 at the concrete string "hi\0". -/
theorem c2_string_encoding_layout_witness :
    (3 : Nat) + 8 ≤ 4294967296 ∧
    (string_write [104, 105, 0] = some (u32_to_ne_bytes 3 ++ [104, 105, 0] ++
        List.replicate (align_to_4 3 - 3) 0) ∧
      (u32_to_ne_bytes 3 ++ [104, 105, 0] ++
        List.replicate (align_to_4 3 - 3) 0).length = 4 + align_to_4 3) :=
  ⟨by decide, c2_string_encoding_layout.1 [104, 105, 0] (by decide)⟩

/-- C6 (code_bug evidence): reading a new_id from four zero bytes fails,
but the error kind the source attaches is `implementation`, not the
protocol-violation kind `invalid_method` that the spec's classification
(and the sibling required-object read) uses for null-where-not-allowed. -/
theorem c6_new_id_zero_reports_implementation :
    new_id_read [0, 0, 0, 0] =
      .error ⟨.implementation, "id with value 0 is not allowed here"⟩ ∧
    ErrKind.implementation ≠ ErrKind.invalid_method :=
  ⟨rfl, by decide⟩

/-- C7 counterexample: the three content bytes 'h','i','!' are not
NUL-terminated (the last of the `len = 3` content bytes is 33), yet
`String::read` succeeds — no missing-null-terminator error is reported. -/
theorem c7_counterexample_unterminated_string_reads_ok :
    string_read [3, 0, 0, 0, 104, 105, 33, 0] = .ok (([104, 105, 33, 0], 3), []) ∧
    (33 : Nat) ≠ 0 :=
  ⟨rfl, by decide⟩

/-- C7 (amended): `String::read` validates only the length prefix — for
any non-zero decoded length it succeeds whenever `align_to_4 len` bytes
follow, regardless of the content bytes; it never inspects the content
for a NUL terminator. -/
theorem c7_string_read_never_checks_terminator (body : List Nat) (len : Nat)
    (h0 : 0 < len) (h1 : len < 4294967296) (h2 : align_to_4 len ≤ body.length) :
    string_read (u32_to_ne_bytes len ++ body) =
      .ok ((body.take (align_to_4 len), len), body.drop (align_to_4 len)) := by
  simp only [u32_to_ne_bytes, List.cons_append, List.nil_append, string_read,
    read_data, read_4_bytes]
  rw [u32_bytes_id len h1, if_pos h2]
  exact if_neg (by omega)

/-- Witness for the amended C7 at the unterminated input. -/
theorem c7_string_read_never_checks_terminator_witness :
    string_read (u32_to_ne_bytes 3 ++ [104, 105, 33, 0]) =
      .ok (([104, 105, 33, 0].take (align_to_4 3), 3), [104, 105, 33, 0].drop (align_to_4 3)) :=
  c7_string_read_never_checks_terminator [104, 105, 33, 0] 3 (by decide) (by decide) (by decide)

/-- C9 (code_bug evidence): `Fixed::from_f64` is not inverse to
`Fixed::to_f64`: the value with raw representation 256 (i.e. 1.0)
converts to the `f64` 1.0, which `from_f64` maps back to raw 1 — the
source forgot to multiply by 256 (`wayland-util.h` scales by 256). -/
theorem c9_fixed_from_f64_not_inverse :
    Fixed.from_f64 (Fixed.to_f64 ⟨256⟩) = ⟨1⟩ ∧ (⟨1⟩ : Fixed) ≠ (⟨256⟩ : Fixed) := by
  constructor
  · have h : Fixed.to_f64 ⟨256⟩ = 1 := by
      unfold Fixed.to_f64
      norm_num
    rw [h]
    unfold Fixed.from_f64
    rw [Rat.num_one, Rat.den_one]
    have htd : Int.tdiv 1 ((1 : Nat) : Int) = 1 := rfl
    rw [htd]
    rw [Fixed.mk.injEq]
    omega
  · intro h
    rw [Fixed.mk.injEq] at h
    omega

/-- C10 (code_bug evidence): on the 4-byte buffer [0xff,0xff,0xff,0xff]
(so 0 bytes remain after the prefix), `Array::read` succeeds and returns
a value claiming length 4294967295: the 32-bit computation
`align_to_4 4294967295` wraps to 0, defeating the `split_at_checked`
bound, so the claim `len ≤ n - 4` fails. -/
theorem c10_align_wrap_defeats_length_check :
    array_read [255, 255, 255, 255] = .ok (([], 4294967295), []) ∧
    align_to_4 4294967295 = 0 ∧
    ¬(4294967295 ≤ 4 - 4) :=
  ⟨rfl, by decide, by decide⟩

/-- C3 counterexample: on a fresh engine a message of payload length
65528 (frame size 65536) fits the 262144-byte tx ring, so `tx_msg_buf`
succeeds — but the stamped 16-bit datalen is `65536 as u16 = 0`, not
`8 + m.len()`. -/
theorem c3_counterexample_datalen_truncates :
    (tx_msg_buf io_new 7 1 65528 0).2 = some ⟨7, 0, 1⟩ ∧
    (0 : Nat) ≠ 8 + 65528 :=
  ⟨rfl, by decide⟩

/-- C3 (amended): whenever `tx_msg_buf` succeeds it reserves exactly
`8 + m.len()` bytes in the tx data ring and stamps an 8-byte header
whose second 32-bit word is packed as `(datalen << 16) | opcode`
(`message_hdr::write`), where `datalen = (8 + m.len()) mod 2^16` (the
`as u16` cast); datalen equals `8 + m.len()` exactly when
`8 + m.len() < 2^16`. -/
theorem c3_framing_datalen (io : IoState) (objId op msgLen fdCount : Nat)
    (io' : IoState) (hdr : MessageHeader)
    (h : tx_msg_buf io objId op msgLen fdCount = (io', some hdr)) :
    hdr.datalen = (8 + msgLen) % 65536 ∧
    hdr.object_id = objId ∧
    hdr.opcode = op ∧
    message_header_write hdr =
      object_write objId ++ uint_write (((8 + msgLen) % 65536) * 65536 + op % 65536) ∧
    io'.txDa.len = io.txDa.len + (8 + msgLen) ∧
    (8 + msgLen < 65536 → hdr.datalen = 8 + msgLen) := by
  simp only [tx_msg_buf, message_header_data_len, message_header_ctrl_len] at h
  split at h
  · rw [Prod.mk.injEq] at h
    obtain ⟨h1, h2⟩ := h
    cases h2
    subst h1
    refine ⟨rfl, rfl, rfl, ?_, rfl, fun hlt => Nat.mod_eq_of_lt hlt⟩
    have hm : (8 + msgLen) % 65536 % 65536 = (8 + msgLen) % 65536 := by omega
    simp only [message_header_write, hm]
  · rw [Prod.mk.injEq] at h
    exact absurd h.2 (by simp)

/-- Witness for the amended C3: a 4-byte message on a fresh engine. -/
theorem c3_framing_datalen_witness :
    (MessageHeader.mk 1 12 0).datalen = (8 + 4) % 65536 ∧
    (MessageHeader.mk 1 12 0).object_id = 1 ∧
    (MessageHeader.mk 1 12 0).opcode = 0 ∧
    message_header_write (MessageHeader.mk 1 12 0) =
      object_write 1 ++ uint_write (((8 + 4) % 65536) * 65536 + 0 % 65536) ∧
    ((tx_msg_buf io_new 1 0 4 0).1).txDa.len = io_new.txDa.len + (8 + 4) ∧
    (8 + 4 < 65536 → (MessageHeader.mk 1 12 0).datalen = 8 + 4) :=
  c3_framing_datalen io_new 1 0 4 0 ((tx_msg_buf io_new 1 0 4 0).1) ⟨1, 12, 0⟩ (by rfl)

/-- C4: the ring reservations are atomic on failure — whenever
`tx_msg_buf` (resp. `rx_msg_buf`) returns "no room", both cursors of the
corresponding direction are exactly as they were before the call. -/
theorem c4_reservation_atomic_on_failure :
    (∀ io objId op msgLen fdCount io',
      tx_msg_buf io objId op msgLen fdCount = (io', none) →
      io'.txDa = io.txDa ∧ io'.txFd = io.txFd) ∧
    (∀ io daReq fdReq io',
      rx_msg_buf io daReq fdReq = (io', none) →
      io'.rxDa = io.rxDa ∧ io'.rxFd = io.rxFd) := by
  constructor
  · intro io objId op msgLen fdCount io' h
    simp only [tx_msg_buf, message_header_data_len, message_header_ctrl_len] at h
    split at h <;> rw [Prod.mk.injEq] at h
    · exact absurd h.2 (by simp)
    · obtain ⟨h1, -⟩ := h
      subst h1
      exact ⟨rfl, rfl⟩
  · intro io daReq fdReq io' h
    simp only [rx_msg_buf] at h
    split at h <;> rw [Prod.mk.injEq] at h
    · exact absurd h.2 (by simp)
    · obtain ⟨h1, -⟩ := h
      subst h1
      exact ⟨rfl, rfl⟩

/-- Witness for C4: an oversized tx request and an rx request against an
empty ring both fail and leave the fresh engine's cursors intact. -/
theorem c4_reservation_atomic_on_failure_witness :
    ((tx_msg_buf io_new 1 0 262144 0).1.txDa = io_new.txDa ∧
      (tx_msg_buf io_new 1 0 262144 0).1.txFd = io_new.txFd) ∧
    ((rx_msg_buf io_new 4 0).1.rxDa = io_new.rxDa ∧
      (rx_msg_buf io_new 4 0).1.rxFd = io_new.rxFd) :=
  ⟨c4_reservation_atomic_on_failure.1 io_new 1 0 262144 0
      ((tx_msg_buf io_new 1 0 262144 0).1) (by rfl),
   c4_reservation_atomic_on_failure.2 io_new 4 0
      ((rx_msg_buf io_new 4 0).1) (by rfl)⟩

lemma registry_state_closed (k : Nat) :
    registry_state k = min (2 + k) 4294967295 := by
  induction k with
  | zero => rfl
  | succ k ih =>
      show registry_next (registry_state k) = _
      rw [ih]
      unfold registry_next
      omega

/-- C5 counterexample: the saturating allocator returns the same id
(`u32::MAX`) for the two distinct allocations number 4294967293 and
4294967294, so for long enough sequences an id is returned twice. -/
theorem c5_counterexample_id_reused_at_saturation :
    alloc_id_at 4294967293 = alloc_id_at 4294967294 ∧
    (4294967293 : Nat) ≠ 4294967294 := by
  constructor
  · unfold alloc_id_at
    rw [registry_state_closed, registry_state_closed]
    omega
  · decide

/-- C5 (amended): the first allocated id is 2 and ids strictly increase
(hence are pairwise distinct) for as long as the allocator is not
saturated, i.e. across the first 4294967294 allocations; only at
saturation does the id `u32::MAX` repeat. -/
theorem c5_ids_strictly_increase_until_saturation :
    alloc_id_at 0 = 2 ∧
    ∀ j k : Nat, j < k → k ≤ 4294967293 → alloc_id_at j < alloc_id_at k := by
  refine ⟨rfl, fun j k hjk hk => ?_⟩
  unfold alloc_id_at
  rw [registry_state_closed, registry_state_closed]
  omega

/-- Witness for the amended C5 at the first two allocations. -/
theorem c5_ids_strictly_increase_until_saturation_witness :
    0 < 1 ∧ (1 : Nat) ≤ 4294967293 ∧ alloc_id_at 0 < alloc_id_at 1 :=
  ⟨by decide, by decide,
   c5_ids_strictly_increase_until_saturation.2 0 1 (by decide) (by decide)⟩

lemma io_step_recvClosed (io : IoState) (st : IoStep)
    (h : io.interest.recvClosed = true) :
    (io_step io st).interest.recvClosed = true := by
  cases st with
  | recv ev =>
      cases ev <;> simp only [io_step, recv_step] <;> split_ifs <;> simp_all
  | send ev =>
      cases ev <;> simp only [io_step, send_step] <;> split_ifs <;> simp_all
  | txBuf a b c d =>
      simp only [io_step, tx_msg_buf, message_header_data_len, message_header_ctrl_len]
      split_ifs <;> simp_all
  | rxBuf a b =>
      simp only [io_step, rx_msg_buf]
      rcases hda : (split_cursor io.rxDa a).1 with - | d1 <;>
        rcases hfd : (split_cursor io.rxFd b).1 with - | d2 <;>
        simp only [hda, hfd] <;> first
          | assumption
          | (split_ifs <;> simp_all)

lemma io_step_sendClosed (io : IoState) (st : IoStep)
    (h : io.interest.sendClosed = true) :
    (io_step io st).interest.sendClosed = true := by
  cases st with
  | recv ev =>
      cases ev <;> simp only [io_step, recv_step] <;> split_ifs <;> simp_all
  | send ev =>
      cases ev <;> simp only [io_step, send_step] <;> split_ifs <;> simp_all
  | txBuf a b c d =>
      simp only [io_step, tx_msg_buf, message_header_data_len, message_header_ctrl_len]
      split_ifs <;> simp_all
  | rxBuf a b =>
      simp only [io_step, rx_msg_buf]
      rcases hda : (split_cursor io.rxDa a).1 with - | d1 <;>
        rcases hfd : (split_cursor io.rxFd b).1 with - | d2 <;>
        simp only [hda, hfd] <;> first
          | assumption
          | (split_ifs <;> simp_all)

lemma io_step_no_recv_reinsert (io : IoState) (st : IoStep)
    (hc : io.interest.recvClosed = true) (h : io.interest.recv = false) :
    (io_step io st).interest.recv = false := by
  cases st with
  | recv ev =>
      cases ev <;> simp only [io_step, recv_step] <;> split_ifs <;> simp_all
  | send ev =>
      cases ev <;> simp only [io_step, send_step] <;> split_ifs <;> simp_all
  | txBuf a b c d =>
      simp only [io_step, tx_msg_buf, message_header_data_len, message_header_ctrl_len]
      split_ifs <;> simp_all
  | rxBuf a b =>
      simp only [io_step, rx_msg_buf]
      rcases hda : (split_cursor io.rxDa a).1 with - | d1 <;>
        rcases hfd : (split_cursor io.rxFd b).1 with - | d2 <;>
        simp only [hda, hfd] <;> first
          | assumption
          | (split_ifs <;> simp_all)

lemma io_step_no_send_reinsert (io : IoState) (st : IoStep)
    (hc : io.interest.sendClosed = true) (h : io.interest.send = false) :
    (io_step io st).interest.send = false := by
  cases st with
  | recv ev =>
      cases ev <;> simp only [io_step, recv_step] <;> split_ifs <;> simp_all
  | send ev =>
      cases ev <;> simp only [io_step, send_step] <;> split_ifs <;> simp_all
  | txBuf a b c d =>
      simp only [io_step, tx_msg_buf, message_header_data_len, message_header_ctrl_len]
      split_ifs <;> simp_all
  | rxBuf a b =>
      simp only [io_step, rx_msg_buf]
      rcases hda : (split_cursor io.rxDa a).1 with - | d1 <;>
        rcases hfd : (split_cursor io.rxFd b).1 with - | d2 <;>
        simp only [hda, hfd] <;> first
          | assumption
          | (split_ifs <;> simp_all)

/-- C8: the closed bits of the interest mask are terminal — across every
sequence of engine operations (`drive_io` recv/send rounds, `tx_msg_buf`,
`rx_msg_buf`) a set `RECV_CLOSED` / `SEND_CLOSED` bit stays set, and once
a direction is closed the corresponding `RECV` / `SEND` bit is never
re-inserted. -/
theorem c8_closed_bits_terminal (io : IoState) (tr : List IoStep) :
    (io.interest.recvClosed = true → (io_run io tr).interest.recvClosed = true) ∧
    (io.interest.sendClosed = true → (io_run io tr).interest.sendClosed = true) ∧
    (io.interest.recvClosed = true → io.interest.recv = false →
      (io_run io tr).interest.recv = false) ∧
    (io.interest.sendClosed = true → io.interest.send = false →
      (io_run io tr).interest.send = false) := by
  induction tr generalizing io with
  | nil => exact ⟨id, id, fun _ h => h, fun _ h => h⟩
  | cons st tr ih =>
      obtain ⟨ih1, ih2, ih3, ih4⟩ := ih (io_step io st)
      exact ⟨fun h => ih1 (io_step_recvClosed io st h),
             fun h => ih2 (io_step_sendClosed io st h),
             fun hc h => ih3 (io_step_recvClosed io st hc)
               (io_step_no_recv_reinsert io st hc h),
             fun hc h => ih4 (io_step_sendClosed io st hc)
               (io_step_no_send_reinsert io st hc h)⟩

/-- Witness for C8: a fully closed engine stays closed and quiescent
across a mixed trace of all four operation kinds. -/
theorem c8_closed_bits_terminal_witness :
    (io_run ⟨⟨262144, 0, 0⟩, ⟨1024, 0, 0⟩, ⟨262144, 0, 0⟩, ⟨1024, 0, 0⟩,
        ⟨false, false, true, true⟩⟩
      [.recv .would_block, .send .would_block, .txBuf 1 0 4 0,
        .rxBuf 4 0]).interest.recvClosed = true ∧
    (io_run ⟨⟨262144, 0, 0⟩, ⟨1024, 0, 0⟩, ⟨262144, 0, 0⟩, ⟨1024, 0, 0⟩,
        ⟨false, false, true, true⟩⟩
      [.recv .would_block, .send .would_block, .txBuf 1 0 4 0,
        .rxBuf 4 0]).interest.sendClosed = true ∧
    (io_run ⟨⟨262144, 0, 0⟩, ⟨1024, 0, 0⟩, ⟨262144, 0, 0⟩, ⟨1024, 0, 0⟩,
        ⟨false, false, true, true⟩⟩
      [.recv .would_block, .send .would_block, .txBuf 1 0 4 0,
        .rxBuf 4 0]).interest.recv = false ∧
    (io_run ⟨⟨262144, 0, 0⟩, ⟨1024, 0, 0⟩, ⟨262144, 0, 0⟩, ⟨1024, 0, 0⟩,
        ⟨false, false, true, true⟩⟩
      [.recv .would_block, .send .would_block, .txBuf 1 0 4 0,
        .rxBuf 4 0]).interest.send = false :=
  ⟨(c8_closed_bits_terminal _ _).1 rfl,
   (c8_closed_bits_terminal _ _).2.1 rfl,
   (c8_closed_bits_terminal _ _).2.2.1 rfl rfl,
   (c8_closed_bits_terminal _ _).2.2.2 rfl rfl⟩
